import Mathlib

/-!
Verification of the crop-to-output pipeline of the `ImageCropper` component
(`src/components/ImageCropper.tsx`).

The component keeps a crop state (pan offset, zoom, rotation, a derived pixel
crop rectangle) and, on Apply, runs `getCroppedImg`: it draws the full source
image, rotated about its own center, onto an oversized square canvas, extracts
the crop rectangle from that canvas onto a tightly sized output canvas,
optionally applies a circular destination-in mask, encodes the result, wraps it
as a file, and fires the success callbacks.

Canvas drawing is modelled with ideal point-sampling semantics: a canvas is a
total function from real-plane coordinates to pixels, and `drawImage` under a
2D transform paints, at each destination point, the source pixel found at the
inverse transform of that point (transparent where nothing was drawn).  All
numbers are real, matching the JavaScript floating-point arithmetic exactly on
the algebraic identities proved here.
-/

open Real

/-- Pixel with red, green, blue and alpha channels. -/
structure Pixel where
  r : Nat
  g : Nat
  b : Nat
  a : Nat
  deriving DecidableEq

/-- Transparent pixel: the canvas background after `fillRect` with
`rgba(0, 0, 0, 0)`, and what `destination-in` leaves outside the mask. -/
def Pixel.transparent : Pixel := ⟨0, 0, 0, 0⟩

/-- Decoded source image: intrinsic size plus an ideal pixel field
(the raster together with the sampling filter, abstracted as a total
function on the plane). -/
structure SourceImage where
  width : ℝ
  height : ℝ
  pix : ℝ × ℝ → Pixel

/-- Crop rectangle in pixels, as reported by the viewport's
`onCropComplete` callback (`croppedAreaPixels`). -/
structure CropArea where
  x : ℝ
  y : ℝ
  width : ℝ
  height : ℝ

/-- Crop shape: the `cropShape` prop, either `"rect"` or `"round"`. -/
inductive CropShape where
  | rect
  | round
  deriving DecidableEq

/-- Source file handed to the component: its declared name and MIME type
(either may be the empty string, which JavaScript treats as falsy). -/
structure SrcFile where
  name : String
  type : String

/-- Canvas of a fixed size with an ideal pixel field. -/
structure Canvas where
  width : ℝ
  height : ℝ
  pixelAt : ℝ × ℝ → Pixel

/-- Result of `canvas.toDataURL(mime)`: the encoding of a canvas into the
named MIME type (the bytes themselves are abstracted; two encodings agree
exactly when the canvas and the MIME type agree). -/
structure DataUrl where
  canvas : Canvas
  mime : String

/-- Export artifact delivered to `onSuccess` and returned: the output canvas,
its `toDataURL` encoding, and the wrapping `File`'s name and MIME type. -/
structure Artifact where
  out : Canvas
  base64 : DataUrl
  fileName : String
  fileType : String

/-- Sampling an image at a point of the plane: the image's pixel field inside
its bounds, transparent outside (nothing is painted there). -/
noncomputable def sampleImage (img : SourceImage) (q : ℝ × ℝ) : Pixel :=
  if 0 ≤ q.1 ∧ q.1 < img.width ∧ 0 ≤ q.2 ∧ q.2 < img.height then img.pix q
  else Pixel.transparent

/-- Side of the intermediate canvas:
`Math.max(image.width, image.height) * 2`. -/
noncomputable def maxSize (img : SourceImage) : ℝ :=
  max img.width img.height * 2

/-- Degrees to radians: `(rotation * Math.PI) / 180`. -/
noncomputable def rotRad (rotation : ℝ) : ℝ :=
  rotation * Real.pi / 180

/-- Content of the intermediate canvas after
`translate(centerX, centerY); rotate(rotRad); translate(-w/2, -h/2);
drawImage(image, 0, 0)` with `centerX = centerY = maxSize / 2`:
the point `p` shows the source sampled at the inverse transform of `p`. -/
noncomputable def rotatedFull (img : SourceImage) (rotation : ℝ) :
    ℝ × ℝ → Pixel := fun p =>
  let c := Real.cos (rotRad rotation)
  let s := Real.sin (rotRad rotation)
  let cx := maxSize img / 2
  let cy := maxSize img / 2
  sampleImage img
    (c * (p.1 - cx) + s * (p.2 - cy) + img.width / 2,
     -s * (p.1 - cx) + c * (p.2 - cy) + img.height / 2)

/-- Horizontal start of the extraction inside the intermediate canvas:
`cropX = centerX - image.width / 2 + croppedAreaPixels.x`. -/
noncomputable def cropX (img : SourceImage) (ca : CropArea) : ℝ :=
  maxSize img / 2 - img.width / 2 + ca.x

/-- Vertical start of the extraction inside the intermediate canvas:
`cropY = centerY - image.height / 2 + croppedAreaPixels.y`. -/
noncomputable def cropY (img : SourceImage) (ca : CropArea) : ℝ :=
  maxSize img / 2 - img.height / 2 + ca.y

/-- Unmasked output content: the second `drawImage` copies the
`ca.width × ca.height` region of the intermediate canvas starting at
`(cropX, cropY)` to the origin, with no scaling and no further rotation. -/
noncomputable def croppedUnmasked (img : SourceImage) (rotation : ℝ)
    (ca : CropArea) : ℝ × ℝ → Pixel := fun p =>
  rotatedFull img rotation (cropX img ca + p.1, cropY img ca + p.2)

/-- Circular `destination-in` mask over a `w × h` canvas: an opaque disc of
radius `min w h / 2` about the center keeps the destination; everything
outside it becomes fully transparent. -/
noncomputable def applyMask (w h : ℝ) (dest : ℝ × ℝ → Pixel) :
    ℝ × ℝ → Pixel := fun p =>
  if (p.1 - w / 2) ^ 2 + (p.2 - h / 2) ^ 2 ≤ (min w h / 2) ^ 2 then dest p
  else Pixel.transparent

/-- Output canvas: sized exactly `croppedAreaPixels.width × height`, holding
the extracted region, circularly masked when the crop shape is round. -/
noncomputable def outputCanvas (img : SourceImage) (rotation : ℝ)
    (ca : CropArea) (shape : CropShape) : Canvas :=
  { width := ca.width
    height := ca.height
    pixelAt :=
      if shape = CropShape.round then
        applyMask ca.width ca.height (croppedUnmasked img rotation ca)
      else croppedUnmasked img rotation ca }

/-- Component state snapshot read by `getCroppedImg` at trigger time.
`src` is the object URL (empty string when no file is loaded, which is falsy);
`image` is the result of `createImage src` and is meaningful when `loadOk`
holds; the `ctxOk` flags record whether `canvas.getContext("2d")` returns a
context for the intermediate and the output canvas. -/
structure CropperState where
  src : String
  croppedAreaPixels : Option CropArea
  file : Option SrcFile
  image : SourceImage
  loadOk : Bool
  ctxOk : Bool
  croppedCtxOk : Bool
  zoom : ℝ
  rotation : ℝ
  cropShape : CropShape

/-- Observable outcome of one `getCroppedImg` invocation: the returned value,
whether `onSuccess` fired, whether `onOpenChange(false)` closed the dialog,
and whether the top-level catch logged an error. -/
structure ExportOutcome where
  result : Option Artifact
  successCalled : Bool
  viewClosed : Bool
  errorLogged : Bool

/-- Silent no-op outcome of the early `return` on a missing precondition. -/
def ExportOutcome.noop : ExportOutcome :=
  ⟨none, false, false, false⟩

/-- Outcome when the body throws or a promise rejects: the top-level catch
logs the error and nothing else happens. -/
def ExportOutcome.errorAbort : ExportOutcome :=
  ⟨none, false, false, true⟩

/-- The export pipeline `getCroppedImg`.  The `try`/`catch` wrapping the whole
body is modelled by returning `ExportOutcome.errorAbort` at each point where
the body throws (`createImage` rejection, either `getContext` returning null),
so the function is total and no exception reaches the caller.  On success it
encodes the output canvas with `file.type || "image/jpeg"`, wraps the bytes as
`cropped-<name>` (or `cropped-image.jpg` for a nameless file) with the same
MIME fallback, fires `onSuccess` and `onOpenChange(false)`, and returns the
artifact. -/
noncomputable def getCroppedImg (st : CropperState) : ExportOutcome :=
  if st.src = "" then ExportOutcome.noop
  else
    match st.croppedAreaPixels, st.file with
    | some ca, some f =>
      if ¬ st.loadOk then ExportOutcome.errorAbort
      else if ¬ st.ctxOk then ExportOutcome.errorAbort
      else if ¬ st.croppedCtxOk then ExportOutcome.errorAbort
      else
        let out := outputCanvas st.image st.rotation ca st.cropShape
        let mime := if f.type = "" then "image/jpeg" else f.type
        let b64 : DataUrl := ⟨out, mime⟩
        let nm := if f.name = "" then "cropped-image.jpg"
                  else "cropped-" ++ f.name
        ⟨some ⟨out, b64, nm, mime⟩, true, true, false⟩
    | _, _ => ExportOutcome.noop

/-! ### Specification-side pipeline (for the refinement claim)

The following definitions transcribe the spec's wording of the render
pipeline, to be compared with the code's `croppedUnmasked` above. -/

/-- Spec wording: the intermediate surface is a square whose side is twice
the larger source dimension. -/
noncomputable def specIntermediateSize (img : SourceImage) : ℝ :=
  2 * max img.width img.height

/-- Spec wording: the full source image is rotated about its own center, by
the current rotation angle, into the intermediate surface (the image's center
coinciding with the surface's center); a surface point shows the source
sampled at the inverse of that rotation-about-center placement. -/
noncomputable def specIntermediate (img : SourceImage) (rotation : ℝ) :
    ℝ × ℝ → Pixel := fun p =>
  let c := Real.cos (rotRad rotation)
  let s := Real.sin (rotRad rotation)
  let half := specIntermediateSize img / 2
  sampleImage img
    (c * (p.1 - half) + s * (p.2 - half) + img.width / 2,
     -s * (p.1 - half) + c * (p.2 - half) + img.height / 2)

/-- Spec wording: `intermediate_crop_x = (intermediateSize − sourceWidth)/2
+ cropRect.x`, and the same for y. -/
noncomputable def specCropStart (img : SourceImage) (ca : CropArea) : ℝ × ℝ :=
  ((specIntermediateSize img - img.width) / 2 + ca.x,
   (specIntermediateSize img - img.height) / 2 + ca.y)

/-- Spec wording: extract exactly `cropRect.width × cropRect.height` pixels
starting at the computed position from the intermediate (rotated) surface,
with no further rotation at this stage. -/
noncomputable def specExtract (img : SourceImage) (rotation : ℝ)
    (ca : CropArea) : ℝ × ℝ → Pixel := fun p =>
  specIntermediate img rotation
    ((specCropStart img ca).1 + p.1, (specCropStart img ca).2 + p.2)

/-- Direct, unrotated extraction of the source at the crop rectangle: the
point `p` of the output shows the source sampled at `(ca.x + p.1, ca.y + p.2)`. -/
noncomputable def directCrop (img : SourceImage) (ca : CropArea) :
    ℝ × ℝ → Pixel := fun p =>
  sampleImage img (ca.x + p.1, ca.y + p.2)

/-! ### Zoom controls

The zoom-out button runs `setZoom(Math.max(1, zoom - 0.1))`, the zoom-in
button runs `setZoom(Math.min(maxZoom, zoom + 0.1))`, and the range slider
(`min={1} max={maxZoom}`) sets the zoom to its value, which the range input
itself constrains to `[min, max]`.  Zoom starts at `useState(1)`. -/

/-- Zoom-out button: `Math.max(1, zoom - 0.1)`. -/
noncomputable def zoomOutStep (z : ℝ) : ℝ := max 1 (z - 0.1)

/-- Zoom-in button: `Math.min(maxZoom, zoom + 0.1)`. -/
noncomputable def zoomInStep (maxZoom z : ℝ) : ℝ := min maxZoom (z + 0.1)

/-- Range slider with `min={1} max={maxZoom}`: the range input clamps any
attempted value into `[1, maxZoom]` before `onChange` reports it. -/
noncomputable def sliderStep (maxZoom v : ℝ) : ℝ := min maxZoom (max 1 v)

/-- User actions that change the zoom state. -/
inductive ZoomAction where
  | zoomOutClick
  | zoomInClick
  | sliderInput (v : ℝ)

/-- Effect of one zoom action on the zoom state. -/
noncomputable def applyZoom (maxZoom z : ℝ) : ZoomAction → ℝ
  | ZoomAction.zoomOutClick => zoomOutStep z
  | ZoomAction.zoomInClick => zoomInStep maxZoom z
  | ZoomAction.sliderInput v => sliderStep maxZoom v

/-- Zoom after a sequence of actions, starting from the initial zoom 1. -/
noncomputable def zoomAfter (maxZoom : ℝ) (acts : List ZoomAction) : ℝ :=
  acts.foldl (applyZoom maxZoom) 1

/-! ### Rotation controls

Rotation starts at `useState(0)`; the only writers are `handleRotateLeft`
(`prev - 90`) and `handleRotateRight` (`prev + 90`).  The `Cropper` element
receives `rotation` as a prop but no rotation-change callback, so no other
rotation value is reachable through the component's interface. -/

/-- The `handleRotateLeft` update: `prev - 90`. -/
noncomputable def handleRotateLeft (r : ℝ) : ℝ := r - 90

/-- The `handleRotateRight` update: `prev + 90`. -/
noncomputable def handleRotateRight (r : ℝ) : ℝ := r + 90

/-- User actions that change the rotation state. -/
inductive RotAction where
  | left
  | right

/-- Effect of one rotation action on the rotation state. -/
noncomputable def applyRotate (r : ℝ) : RotAction → ℝ
  | RotAction.left => handleRotateLeft r
  | RotAction.right => handleRotateRight r

/-- Rotation after a sequence of actions, starting from the initial 0. -/
noncomputable def rotationAfter (acts : List RotAction) : ℝ :=
  acts.foldl applyRotate 0

/-! ### Helper lemmas -/

/-- Inversion of a successful export: a returned artifact forces every
precondition and determines the artifact's fields. -/
lemma getCroppedImg_success_inversion (st : CropperState) (a : Artifact)
    (hres : (getCroppedImg st).result = some a) :
    ∃ ca f, st.croppedAreaPixels = some ca ∧ st.file = some f ∧
      a = ⟨outputCanvas st.image st.rotation ca st.cropShape,
           ⟨outputCanvas st.image st.rotation ca st.cropShape,
            if f.type = "" then "image/jpeg" else f.type⟩,
           (if f.name = "" then "cropped-image.jpg" else "cropped-" ++ f.name),
           (if f.type = "" then "image/jpeg" else f.type)⟩ := by
  unfold getCroppedImg at hres
  split at hres
  · simp [ExportOutcome.noop] at hres
  · split at hres
    · split at hres
      · simp [ExportOutcome.errorAbort] at hres
      · split at hres
        · simp [ExportOutcome.errorAbort] at hres
        · split at hres
          · simp [ExportOutcome.errorAbort] at hres
          · rename_i ca f hca hf _ _ _
            simp only [Option.some.injEq] at hres
            exact ⟨ca, f, hca, hf, hres.symm⟩
    · simp [ExportOutcome.noop] at hres

/-! ### Claims -/

/-- C1: For every export with a loaded source image, crop rectangle and
rotation angle, the pipeline first draws the full source image rotated about
its own center into an intermediate surface whose side is twice the larger
source dimension, and then extracts the crop starting at
`((intermediateSize - sourceWidth)/2 + cropRect.x,
(intermediateSize - sourceHeight)/2 + cropRect.y)` in that surface, applying
no further rotation at the extraction stage: the code's extraction
(`croppedUnmasked`, the content of the output canvas before any mask, as used
by `getCroppedImg`) coincides with the spec-side pipeline `specExtract`, and
the code's intermediate canvas side equals the spec's intermediate size. -/
theorem croppedUnmasked_eq_specExtract (img : SourceImage) (rotation : ℝ)
    (ca : CropArea) :
    croppedUnmasked img rotation ca = specExtract img rotation ca ∧
    maxSize img = specIntermediateSize img := by
  constructor
  · funext p
    simp only [croppedUnmasked, specExtract, rotatedFull, specIntermediate]
    congr 1
    simp only [Prod.mk.injEq, cropX, cropY, specCropStart, maxSize,
      specIntermediateSize]
    constructor <;> ring
  · simp only [maxSize, specIntermediateSize]
    ring

/-- C7: When the rotation angle is 0, the exported pixel buffer before any
circular masking (`croppedUnmasked`, the output-canvas content used by
`getCroppedImg`) equals the direct, unrotated extraction of the source image
at the crop rectangle's coordinates. -/
theorem croppedUnmasked_rotation_zero (img : SourceImage) (ca : CropArea) :
    croppedUnmasked img 0 ca = directCrop img ca := by
  funext p
  simp only [croppedUnmasked, rotatedFull, directCrop, rotRad, zero_mul,
    zero_div, Real.cos_zero, Real.sin_zero]
  congr 1
  simp only [Prod.mk.injEq, cropX, cropY, maxSize]
  constructor <;> ring

/-- C2: For every successful export, whatever the rotation angle and zoom in
effect, the output pixel buffer's width and height exactly equal the crop
rectangle's width and height as reported by the viewport. -/
theorem output_dims_eq_cropRect (st : CropperState) (ca : CropArea)
    (a : Artifact) (hca : st.croppedAreaPixels = some ca)
    (hres : (getCroppedImg st).result = some a) :
    a.out.width = ca.width ∧ a.out.height = ca.height := by
  obtain ⟨ca', f, hca', hf, ha⟩ := getCroppedImg_success_inversion st a hres
  rw [hca] at hca'
  injection hca' with h'
  subst h'
  subst ha
  exact ⟨rfl, rfl⟩

/-- Test image used by the concrete witness states. -/
noncomputable def imgW : SourceImage :=
  ⟨4, 4, fun _ => ⟨7, 8, 9, 255⟩⟩

/-- Test source file used by the concrete witness states. -/
def fileW : SrcFile := ⟨"avatar.png", "image/png"⟩

/-- Test crop rectangle used by the concrete witness states. -/
noncomputable def caW : CropArea := ⟨0, 0, 2, 2⟩

/-- Default artifact used only to name the artifact of a successful export. -/
noncomputable def defaultArtifact : Artifact :=
  ⟨⟨0, 0, fun _ => Pixel.transparent⟩,
   ⟨⟨0, 0, fun _ => Pixel.transparent⟩, ""⟩, "", ""⟩

/-- Concrete state with all preconditions met and a rectangular crop shape. -/
noncomputable def stC2 : CropperState :=
  ⟨"blob:u", some caW, some fileW, imgW, true, true, true, 1, 0, CropShape.rect⟩

/-- Artifact produced by the export from `stC2`. -/
noncomputable def artC2 : Artifact :=
  ((getCroppedImg stC2).result).getD defaultArtifact

/-- Witness for C2: the export from `stC2` succeeds and its output canvas is
exactly 2 × 2, the crop rectangle's size. -/
theorem output_dims_eq_cropRect_witness :
    artC2.out.width = 2 ∧ artC2.out.height = 2 :=
  output_dims_eq_cropRect stC2 caW artC2 rfl rfl

/-- C5: Every successful export encodes the output surface to the original
file's declared MIME type when that type is nonempty, otherwise to
`image/jpeg`, and wraps the bytes as a file named `cropped-` + the original
name (or `cropped-image.jpg` when the original name is empty) whose MIME type
is the original file's type or the `image/jpeg` fallback. -/
theorem export_encoding_and_naming (st : CropperState)
    (f : SrcFile) (a : Artifact)
    (hf : st.file = some f) (hres : (getCroppedImg st).result = some a) :
    a.base64.mime = (if f.type = "" then "image/jpeg" else f.type) ∧
    a.fileType = (if f.type = "" then "image/jpeg" else f.type) ∧
    a.fileName =
      (if f.name = "" then "cropped-image.jpg" else "cropped-" ++ f.name) := by
  obtain ⟨ca', f', hca', hf', ha⟩ := getCroppedImg_success_inversion st a hres
  rw [hf] at hf'
  injection hf' with h'
  subst h'
  subst ha
  exact ⟨rfl, rfl, rfl⟩

/-- Concrete state for the naming witness. -/
noncomputable def stC5 : CropperState :=
  ⟨"blob:u", some caW, some fileW, imgW, true, true, true, 1, 0, CropShape.rect⟩

/-- Artifact produced by the export from `stC5`. -/
noncomputable def artC5 : Artifact :=
  ((getCroppedImg stC5).result).getD defaultArtifact

/-- Witness for C5: exporting `avatar.png` of type `image/png` encodes to
`image/png` and names the wrapper `cropped-avatar.png` of type `image/png`. -/
theorem export_encoding_and_naming_witness :
    artC5.base64.mime = "image/png" ∧ artC5.fileType = "image/png" ∧
    artC5.fileName = "cropped-avatar.png" := by
  have h := export_encoding_and_naming stC5 fileW artC5 rfl rfl
  simpa using h

/-- C3: For every export with the round crop shape, every pixel of the output
buffer strictly outside radius `min(width, height)/2` from the buffer's center
is fully transparent (alpha 0), and every pixel strictly inside that radius
equals the corresponding pixel of the unmasked rectangular crop.  Strictly
outside / inside is expressed by comparing squared distances to the squared
radius. -/
theorem round_mask_correct (st : CropperState) (ca : CropArea) (a : Artifact)
    (hca : st.croppedAreaPixels = some ca)
    (hshape : st.cropShape = CropShape.round)
    (hres : (getCroppedImg st).result = some a) :
    ∀ p : ℝ × ℝ,
      ((min ca.width ca.height / 2) ^ 2 <
          (p.1 - ca.width / 2) ^ 2 + (p.2 - ca.height / 2) ^ 2 →
        (a.out.pixelAt p).a = 0) ∧
      ((p.1 - ca.width / 2) ^ 2 + (p.2 - ca.height / 2) ^ 2 <
          (min ca.width ca.height / 2) ^ 2 →
        a.out.pixelAt p = croppedUnmasked st.image st.rotation ca p) := by
  obtain ⟨ca', f, hca', hf, ha⟩ := getCroppedImg_success_inversion st a hres
  rw [hca] at hca'
  injection hca' with h'
  subst h'
  subst ha
  intro p
  constructor
  · intro hout
    show ((outputCanvas st.image st.rotation ca st.cropShape).pixelAt p).a = 0
    simp only [outputCanvas, hshape, if_pos, applyMask]
    rw [if_neg (not_le.mpr hout)]
    rfl
  · intro hin
    show (outputCanvas st.image st.rotation ca st.cropShape).pixelAt p = _
    simp only [outputCanvas, hshape, if_pos, applyMask]
    rw [if_pos (le_of_lt hin)]

/-- Concrete state for the round-mask witness. -/
noncomputable def stC3 : CropperState :=
  ⟨"blob:u", some caW, some fileW, imgW, true, true, true, 1, 0, CropShape.round⟩

/-- Artifact produced by the export from `stC3`. -/
noncomputable def artC3 : Artifact :=
  ((getCroppedImg stC3).result).getD defaultArtifact

/-- Witness for C3: on the 2 × 2 round export from `stC3`, the corner `(0,0)`
(squared distance 2 from the center, beyond the squared radius 1) is fully
transparent, and the center `(1,1)` equals the unmasked crop pixel. -/
theorem round_mask_correct_witness :
    (artC3.out.pixelAt (0, 0)).a = 0 ∧
    artC3.out.pixelAt (1, 1) = croppedUnmasked imgW 0 caW (1, 1) := by
  have h := round_mask_correct stC3 caW artC3 rfl rfl rfl
  constructor
  · exact (h (0, 0)).1 (by norm_num [caW])
  · exact (h (1, 1)).2 (by norm_num [caW])

/-- C4: If any precondition is missing — empty image source, no computed crop
rectangle, or no source file — the export is a silent no-op: it returns no
result, fires no success callback, leaves the dialog open, and logs nothing. -/
theorem missing_precondition_silent_noop (st : CropperState)
    (h : st.src = "" ∨ st.croppedAreaPixels = none ∨ st.file = none) :
    (getCroppedImg st).result = none ∧
    (getCroppedImg st).successCalled = false ∧
    (getCroppedImg st).viewClosed = false ∧
    (getCroppedImg st).errorLogged = false := by
  have hno : getCroppedImg st = ExportOutcome.noop := by
    unfold getCroppedImg
    rcases h with h | h | h
    · rw [if_pos h]
    · by_cases hs : st.src = ""
      · rw [if_pos hs]
      · rw [if_neg hs]
        rw [h]
    · by_cases hs : st.src = ""
      · rw [if_pos hs]
      · rw [if_neg hs]
        rw [h]
        cases hc : st.croppedAreaPixels <;> rfl
  rw [hno]
  exact ⟨rfl, rfl, rfl, rfl⟩

/-- Concrete state with a loaded source and crop rectangle but no file. -/
noncomputable def stC4 : CropperState :=
  ⟨"blob:u", some caW, none, imgW, true, true, true, 1, 0, CropShape.rect⟩

/-- Witness for C4: with no source file, the export from `stC4` is a silent
no-op. -/
theorem missing_precondition_silent_noop_witness :
    (getCroppedImg stC4).result = none ∧
    (getCroppedImg stC4).successCalled = false ∧
    (getCroppedImg stC4).viewClosed = false ∧
    (getCroppedImg stC4).errorLogged = false :=
  missing_precondition_silent_noop stC4 (Or.inr (Or.inr rfl))

/-- C9: If acquiring the 2D drawing context fails during an export whose
preconditions are met, the operation aborts without emitting an artifact: the
top-level catch logs the error, no success callback fires, the dialog stays
open, and — `getCroppedImg` being a total function into `ExportOutcome` — no
exception propagates to the caller. -/
theorem ctx_failure_logged_abort (st : CropperState) (ca : CropArea)
    (f : SrcFile) (hsrc : ¬ st.src = "")
    (hca : st.croppedAreaPixels = some ca) (hf : st.file = some f)
    (hload : st.loadOk = true) (hctx : st.ctxOk = false) :
    (getCroppedImg st).result = none ∧
    (getCroppedImg st).successCalled = false ∧
    (getCroppedImg st).viewClosed = false ∧
    (getCroppedImg st).errorLogged = true := by
  have habort : getCroppedImg st = ExportOutcome.errorAbort := by
    unfold getCroppedImg
    rw [if_neg hsrc]
    rw [hca, hf]
    simp [hload, hctx]
  rw [habort]
  exact ⟨rfl, rfl, rfl, rfl⟩

/-- Concrete state whose intermediate canvas has no 2D context. -/
noncomputable def stC9 : CropperState :=
  ⟨"blob:u", some caW, some fileW, imgW, true, false, true, 1, 0, CropShape.rect⟩

/-- Witness for C9: the export from `stC9` logs and aborts with no artifact. -/
theorem ctx_failure_logged_abort_witness :
    (getCroppedImg stC9).result = none ∧
    (getCroppedImg stC9).successCalled = false ∧
    (getCroppedImg stC9).viewClosed = false ∧
    (getCroppedImg stC9).errorLogged = true :=
  ctx_failure_logged_abort stC9 caW fileW (by decide) rfl rfl rfl rfl

/-- Periodicity of the intermediate canvas in the rotation angle: adding a
full number of turns (360 degrees times an integer) leaves the drawn content
unchanged, because the canvas transform only sees the angle through
`cos (rotRad r)` and `sin (rotRad r)`. -/
lemma rotatedFull_period (img : SourceImage) (θ : ℝ) (k : ℤ) :
    rotatedFull img (θ + 360 * (k : ℝ)) = rotatedFull img θ := by
  have harg : rotRad (θ + 360 * (k : ℝ)) = rotRad θ + (k : ℝ) * (2 * Real.pi) := by
    unfold rotRad
    ring
  funext p
  simp only [rotatedFull, harg, Real.cos_add_int_mul_two_pi,
    Real.sin_add_int_mul_two_pi]

/-- Periodicity of the unmasked extraction in the rotation angle. -/
lemma croppedUnmasked_period (img : SourceImage) (θ : ℝ) (k : ℤ)
    (ca : CropArea) :
    croppedUnmasked img (θ + 360 * (k : ℝ)) ca = croppedUnmasked img θ ca := by
  unfold croppedUnmasked
  rw [rotatedFull_period]

/-- Periodicity of the output canvas in the rotation angle. -/
lemma outputCanvas_period (img : SourceImage) (θ : ℝ) (k : ℤ)
    (ca : CropArea) (shape : CropShape) :
    outputCanvas img (θ + 360 * (k : ℝ)) ca shape =
    outputCanvas img θ ca shape := by
  unfold outputCanvas
  rw [croppedUnmasked_period]

/-- C6: For every component state, rotation angle θ and integer k, running
the export at rotation θ + 360·k and at rotation θ produces identical
outcomes — in particular identical output pixel buffers. -/
theorem getCroppedImg_rotation_period (st : CropperState) (θ : ℝ) (k : ℤ) :
    getCroppedImg {st with rotation := θ + 360 * (k : ℝ)} =
    getCroppedImg {st with rotation := θ} := by
  unfold getCroppedImg
  simp only [outputCanvas_period]

/-- Interval invariant for the zoom fold: from any zoom in `[1, maxZoom]`,
every sequence of zoom actions stays in `[1, maxZoom]`. -/
lemma zoomFoldl_mem (mz : ℝ) (h : 1 ≤ mz) (acts : List ZoomAction) :
    ∀ z : ℝ, 1 ≤ z → z ≤ mz →
      1 ≤ acts.foldl (applyZoom mz) z ∧ acts.foldl (applyZoom mz) z ≤ mz := by
  induction acts with
  | nil =>
    intro z h1 h2
    exact ⟨h1, h2⟩
  | cons act t ih =>
    intro z h1 h2
    rw [List.foldl_cons]
    cases act with
    | zoomOutClick =>
      exact ih _ (le_max_left 1 (z - 0.1)) (max_le h (by linarith))
    | zoomInClick =>
      exact ih _ (le_min h (by linarith)) (min_le_left mz (z + 0.1))
    | sliderInput v =>
      exact ih _ (le_min h (le_max_left 1 v)) (min_le_left mz (max 1 v))

/-- C8: With a configured maximum zoom of at least 1, the zoom factor always
stays within `[1, maxZoom]`: the zoom-out button never takes it below 1, the
zoom-in button never takes it above `maxZoom`, an attempted slider value at or
above `maxZoom` (such as 15 with `maxZoom = 10`) yields effectively `maxZoom`,
and the zoom reached from the initial value 1 by any sequence of zoom actions
lies in `[1, maxZoom]`. -/
theorem zoom_clamped (mz : ℝ) (h : 1 ≤ mz) :
    (∀ z : ℝ, 1 ≤ zoomOutStep z) ∧
    (∀ z : ℝ, zoomInStep mz z ≤ mz) ∧
    (∀ v : ℝ, mz ≤ v → sliderStep mz v = mz) ∧
    (∀ acts : List ZoomAction,
      1 ≤ zoomAfter mz acts ∧ zoomAfter mz acts ≤ mz) := by
  refine ⟨fun z => le_max_left 1 _, fun z => min_le_left mz _, ?_, ?_⟩
  · intro v hv
    unfold sliderStep
    rw [max_eq_right (h.trans hv)]
    exact min_eq_left hv
  · intro acts
    exact zoomFoldl_mem mz h acts 1 le_rfl h

/-- Witness for C8: with `maxZoom = 10`, a slider attempt at 15 yields an
effective zoom of 10, and after that single action the zoom lies in
`[1, 10]`. -/
theorem zoom_clamped_witness :
    sliderStep 10 15 = 10 ∧
    1 ≤ zoomAfter 10 [ZoomAction.sliderInput 15] ∧
    zoomAfter 10 [ZoomAction.sliderInput 15] ≤ 10 := by
  have h := zoom_clamped 10 (by norm_num)
  exact ⟨h.2.2.1 15 (by norm_num), (h.2.2.2 _).1, (h.2.2.2 _).2⟩

/-- Multiples of 90 are preserved by the rotation fold. -/
lemma rotationFoldl_mul_90 (acts : List RotAction) :
    ∀ r : ℝ, (∃ n : ℤ, r = 90 * (n : ℝ)) →
      ∃ n : ℤ, acts.foldl applyRotate r = 90 * (n : ℝ) := by
  induction acts with
  | nil =>
    intro r hr
    exact hr
  | cons act t ih =>
    intro r hr
    obtain ⟨n, rfl⟩ := hr
    rw [List.foldl_cons]
    cases act with
    | left =>
      refine ih _ ⟨n - 1, ?_⟩
      unfold applyRotate handleRotateLeft
      push_cast
      ring
    | right =>
      refine ih _ ⟨n + 1, ?_⟩
      unfold applyRotate handleRotateRight
      push_cast
      ring

/-- C10: The rotation state starts at 0, and since `handleRotateLeft` and
`handleRotateRight` — the only writers reachable through the component's
interface — add or subtract exactly 90, the rotation after any sequence of
rotate actions is an integer multiple of 90 degrees. -/
theorem rotation_always_multiple_of_90 :
    rotationAfter [] = 0 ∧
    ∀ acts : List RotAction, ∃ n : ℤ, rotationAfter acts = 90 * (n : ℝ) := by
  constructor
  · rfl
  · intro acts
    exact rotationFoldl_mul_90 acts 0 ⟨0, by norm_num⟩
